import Mathlib

/-!
Shallow embedding of the core of the simulated tape-library robot controller
(`sim-tlr-hal.py` and `handlers.py`): the location/occupancy model
(`BaseSlot.scan/eject/enter`), the tick-driven executor (`Library.move` and
the `task_*` step functions), the command dispatchers (`action_*`), and the
admission checks of `tape_library_handler_wrapper`.

Python's in-place mutation is rendered as explicit state passing: each task
step takes a `Library` and returns the done flag together with the new
`Library`.  Tasks hold a reference (collection + name) to their device; the
step functions resolve the reference against the current state and write the
updated device back, which reproduces Python's object aliasing.
-/

set_option linter.unusedVariables false

namespace TapeLib

/-- The value of `BaseSlot._type` in the source: `"drive"`, `"picker"` or
`"slot"` (access slots also report `"slot"`). -/
inductive DType
  | drive
  | picker
  | slot
deriving DecidableEq, Repr

/-- A Python inventory-dict value: `None`, a bool, or a tape-id string. -/
inductive PyVal
  | none
  | bool (b : Bool)
  | str (s : String)
deriving DecidableEq, Repr

/-- One `BaseSlot` object: name, `_type`, coordinates and the occupancy
field `tape` (`None` or a tape id). -/
structure Slot where
  name : String
  dtype : DType
  x : Int
  y : Int
  tape : Option String
deriving DecidableEq, Repr

/-- `BaseSlot.scan`: return the current occupant without mutating. -/
def Slot.scan (s : Slot) : Option String :=
  s.tape

/-- `BaseSlot.eject`: raise `LibraryError("<name> is empty")` when the slot
holds no tape, otherwise clear the occupancy and return the tape.  The error
branch carries no updated slot, mirroring that the Python method raises
before any assignment. -/
def Slot.eject (s : Slot) : Except String (String × Slot) :=
  match s.tape with
  | Option.none => Except.error (s.name ++ " is empty")
  | Option.some t => Except.ok (t, { s with tape := Option.none })

/-- `BaseSlot.enter`: raise `LibraryError("<name> is not empty")` when the
slot is occupied, otherwise install the tape. -/
def Slot.enter (s : Slot) (tape : String) : Except String Slot :=
  match s.tape with
  | Option.some _ => Except.error (s.name ++ " is not empty")
  | Option.none => Except.ok { s with tape := Option.some tape }

/-- The primitive task verbs of the executor. -/
inductive Verb
  | goto
  | eject
  | enter
  | scan
  | stop
deriving DecidableEq, Repr

/-- A reference to the device object a queued task points at: which of the
library's collections it lives in, and its key there.  (In the source a task
holds the device object itself; the collections are name-keyed dicts.) -/
inductive DevRef
  | slotRef (name : String)
  | driveRef (name : String)
  | accessRef (name : String)
  | pickerRef
deriving DecidableEq, Repr

/-- One entry of the task queue: `(verb, device)`. -/
structure Task where
  verb : Verb
  dev : DevRef
deriving DecidableEq, Repr

/-- First slot with the given name in a name-keyed collection. -/
def lookupSlot : List Slot → String → Option Slot
  | [], _ => Option.none
  | s :: rest, n => if s.name = n then Option.some s else lookupSlot rest n

/-- Replace the first slot with the given name (dict item assignment). -/
def updateSlot : List Slot → String → Slot → List Slot
  | [], _, _ => []
  | s :: rest, n, s' =>
      if s.name = n then s' :: rest else s :: updateSlot rest n s'

/-- Write one cell of the type-and-name keyed inventory dict-of-dicts. -/
def setInv (inv : DType → String → PyVal) (dt : DType) (n : String)
    (v : PyVal) : DType → String → PyVal :=
  fun dt' n' => if dt' = dt ∧ n' = n then v else inv dt' n'

/-- The `Library` state: display coordinates `_x`/`_y` with their bounds,
the device collections, the lazily populated inventory, the last error
string, the current task, the pending FIFO queue and the running flag. -/
structure Library where
  x : Int
  y : Int
  xMax : Int
  yMax : Int
  slots : List Slot
  drives : List Slot
  accessSlots : List Slot
  picker : Slot
  inventory : DType → String → PyVal
  lastError : Option String
  task : Option Task
  tasks : List Task
  running : Bool

/-- Resolve a task's device reference against the current state. -/
def Library.findDev (lib : Library) : DevRef → Option Slot
  | DevRef.slotRef n => lookupSlot lib.slots n
  | DevRef.driveRef n => lookupSlot lib.drives n
  | DevRef.accessRef n => lookupSlot lib.accessSlots n
  | DevRef.pickerRef => Option.some lib.picker

/-- Write a mutated device object back into the collection it lives in. -/
def Library.updateDev (lib : Library) (r : DevRef) (s : Slot) : Library :=
  match r with
  | DevRef.slotRef n => { lib with slots := updateSlot lib.slots n s }
  | DevRef.driveRef n => { lib with drives := updateSlot lib.drives n s }
  | DevRef.accessRef n => { lib with accessSlots := updateSlot lib.accessSlots n s }
  | DevRef.pickerRef => { lib with picker := s }

/-- `math.copysign(1, d)` as used by `task_goto` (there `d` is a nonzero
integer delta): `1` with the sign of `d`. -/
def copysign1 (d : Int) : Int :=
  if d < 0 then -1 else 1

/-- The clamping applied to the display coordinate `_x`/`_y` after it is set
to the picker's previous position. -/
def clampTo (v hi : Int) : Int :=
  if v < 0 then 0 else if v > hi then hi else v

/-- `Library.task_stop`: lock the library, clear the last error and the
whole pending queue; done in one tick. -/
def Library.task_stop (lib : Library) : Bool × Library :=
  (true, { lib with running := false, lastError := Option.none, tasks := [] })

/-- `Library.task_goto`: on each axis independently, if the picker's
coordinate differs from the device's, save the old coordinate into the
(clamped) display coordinate and move the picker one unit toward the device;
done only when both deltas were already zero on entry (then the current task
is also cleared inside the step, as in the source). -/
def Library.task_goto (lib : Library) (dev : Slot) : Bool × Library :=
  let p := lib.picker
  let dx := p.x - dev.x
  let dy := p.y - dev.y
  let lib1 :=
    if dx = 0 then lib
    else { lib with
            x := clampTo p.x lib.xMax,
            picker := { p with x := p.x - copysign1 dx } }
  let p1 := lib1.picker
  let lib2 :=
    if dy = 0 then lib1
    else { lib1 with
            y := clampTo p1.y lib1.yMax,
            picker := { p1 with y := p1.y - copysign1 dy } }
  if dx = 0 ∧ dy = 0 then
    (true, { lib2 with task := Option.none })
  else
    (false, lib2)

/-- `Library.task_scan`: read the occupant, record a diagnostic string into
`last_error`, and store the raw occupant value (the tape id, or Python
`None` for an empty slot) into `inventory["slot"][device.name]` — the
category is hard-coded to `"slot"` in the source.  Always done. -/
def Library.task_scan (lib : Library) (dev : Slot) : Bool × Library :=
  let tape := dev.scan
  let shown := match tape with
    | Option.none => "None"
    | Option.some t => t
  let stored := match tape with
    | Option.none => PyVal.none
    | Option.some t => PyVal.str t
  (true, { lib with
            lastError := Option.some ("device " ++ dev.name ++ " has tape " ++ shown),
            inventory := setInv lib.inventory DType.slot dev.name stored })

/-- `Library.task_eject`: eject from the device into the picker.  The device
eject is applied (and written back) first; then the picker enter.  On a
`LibraryError` from either, record `last_error`, clear the pending queue and
report not-done — note that a device eject that already succeeded is not
rolled back.  On success update the inventory for both device and picker.
A dangling device reference (impossible through the command surface, where
tasks are only created for existing devices) is a done no-op. -/
def Library.task_eject (lib : Library) (r : DevRef) : Bool × Library :=
  match lib.findDev r with
  | Option.none => (true, lib)
  | Option.some dev =>
    match dev.eject with
    | Except.error msg =>
        (false, { lib with lastError := Option.some msg, tasks := [] })
    | Except.ok (tape, dev') =>
      let lib1 := lib.updateDev r dev'
      match lib1.picker.enter tape with
      | Except.error msg =>
          (false, { lib1 with lastError := Option.some msg, tasks := [] })
      | Except.ok p' =>
        let lib2 := { lib1 with picker := p' }
        (true, { lib2 with
                  inventory :=
                    setInv (setInv lib2.inventory dev.dtype dev.name (PyVal.bool false))
                      lib2.picker.dtype lib2.picker.name (PyVal.bool true) })

/-- `Library.task_enter`: eject from the picker into the device,
symmetrically to `task_eject`: the picker eject is applied first, then the
device enter is resolved against the updated state (which reproduces the
source's aliasing when the device is the picker itself); on a `LibraryError`
record `last_error`, clear the pending queue and report not-done.  A
dangling device reference is a done no-op. -/
def Library.task_enter (lib : Library) (r : DevRef) : Bool × Library :=
  match lib.findDev r with
  | Option.none => (true, lib)
  | Option.some _ =>
    match lib.picker.eject with
    | Except.error msg =>
        (false, { lib with lastError := Option.some msg, tasks := [] })
    | Except.ok (tape, p') =>
      let lib1 := { lib with picker := p' }
      match lib1.findDev r with
      | Option.none => (true, lib)
      | Option.some dev =>
        match dev.enter tape with
        | Except.error msg =>
            (false, { lib1 with lastError := Option.some msg, tasks := [] })
        | Except.ok dev' =>
          let lib2 := lib1.updateDev r dev'
          (true, { lib2 with
                    inventory :=
                      setInv (setInv lib2.inventory dev.dtype dev.name (PyVal.bool true))
                        lib2.picker.dtype lib2.picker.name (PyVal.bool false) })

/-- The `getattr(self, "task_" + verb)` dispatch of `Library.move`.  `goto`
and `scan` only read their device, so a dangling reference is a done no-op
for them as well. -/
def Library.runTask (lib : Library) (t : Task) : Bool × Library :=
  match t.verb with
  | Verb.stop => lib.task_stop
  | Verb.goto =>
    match lib.findDev t.dev with
    | Option.none => (true, lib)
    | Option.some d => lib.task_goto d
  | Verb.scan =>
    match lib.findDev t.dev with
    | Option.none => (true, lib)
    | Option.some d => lib.task_scan d
  | Verb.eject => lib.task_eject t.dev
  | Verb.enter => lib.task_enter t.dev

/-- `Library.move`: one tick.  When running (the simulated library always
has its picker), either advance the current task by one step — clearing the
current-task slot when the step reports done — or, if there is none, pop
the front of the FIFO queue into the current-task slot. -/
def Library.move (lib : Library) : Library :=
  if lib.running then
    match lib.task with
    | Option.some t =>
      let r := lib.runTask t
      if r.1 then { r.2 with task := Option.none } else r.2
    | Option.none =>
      match lib.tasks with
      | [] => lib
      | t :: rest => { lib with task := Option.some t, tasks := rest }
  else lib

/-- The structured `{type, reason, description}` payload of a rejection. -/
structure ErrInfo where
  etype : String
  reason : String
  description : String
deriving DecidableEq, Repr

/-- `Library.get_drive_obj`: an empty identifier is `notspecified`, an
identifier absent from `self.drives` is `nosuch`. -/
def Library.get_drive_obj (lib : Library) (drive : String) : Except ErrInfo Slot :=
  if drive = "" then
    Except.error ⟨"drive", "notspecified", "no drive specified"⟩
  else
    match lookupSlot lib.drives drive with
    | Option.some d => Except.ok d
    | Option.none => Except.error ⟨"drive", "nosuch", "no such drive"⟩

/-- `Library.get_slot_obj`: an empty identifier is `notspecifiec` (the
source's spelling), an identifier absent from `self.slots` is `nosuch`.
Only `self.slots` is consulted — never `self.access_slots`. -/
def Library.get_slot_obj (lib : Library) (slot : String) : Except ErrInfo Slot :=
  if slot = "" then
    Except.error ⟨"slot", "notspecifiec", "no slot specified"⟩
  else
    match lookupSlot lib.slots slot with
    | Option.some s => Except.ok s
    | Option.none => Except.error ⟨"slot", "nosuch", "no such slot"⟩

/-- The inner helper `slot_or_access` defined inside `action_transfer`:
resolve a name against `self.slots` and then `self.access_slots`.  It is
defined but never called in the source. -/
def Library.slot_or_access (lib : Library) (s : String) : Option Slot :=
  match lookupSlot lib.slots s with
  | Option.some sl => Option.some sl
  | Option.none => lookupSlot lib.accessSlots s

/-- `Library.action_scan`: validate the slot, then enqueue goto + scan. -/
def Library.action_scan (lib : Library) (slot : String) : Except ErrInfo Library :=
  match lib.get_slot_obj slot with
  | Except.error e => Except.error e
  | Except.ok s =>
    Except.ok { lib with tasks := lib.tasks ++
      [⟨Verb.goto, DevRef.slotRef s.name⟩, ⟨Verb.scan, DevRef.slotRef s.name⟩] }

/-- `Library.action_load`: validate slot and drive, then enqueue
goto(slot), eject(slot), goto(drive), enter(drive). -/
def Library.action_load (lib : Library) (slot drive : String) : Except ErrInfo Library :=
  match lib.get_slot_obj slot with
  | Except.error e => Except.error e
  | Except.ok s =>
    match lib.get_drive_obj drive with
    | Except.error e => Except.error e
    | Except.ok d =>
      Except.ok { lib with tasks := lib.tasks ++
        [⟨Verb.goto, DevRef.slotRef s.name⟩, ⟨Verb.eject, DevRef.slotRef s.name⟩,
         ⟨Verb.goto, DevRef.driveRef d.name⟩, ⟨Verb.enter, DevRef.driveRef d.name⟩] }

/-- `Library.action_unload`: the mirror image of `action_load`. -/
def Library.action_unload (lib : Library) (slot drive : String) : Except ErrInfo Library :=
  match lib.get_slot_obj slot with
  | Except.error e => Except.error e
  | Except.ok s =>
    match lib.get_drive_obj drive with
    | Except.error e => Except.error e
    | Except.ok d =>
      Except.ok { lib with tasks := lib.tasks ++
        [⟨Verb.goto, DevRef.driveRef d.name⟩, ⟨Verb.eject, DevRef.driveRef d.name⟩,
         ⟨Verb.goto, DevRef.slotRef s.name⟩, ⟨Verb.enter, DevRef.slotRef s.name⟩] }

/-- `Library.action_transfer`: both the source and the target are resolved
through `get_slot_obj` (storage slots only); the `slot_or_access` helper is
not called.  On success enqueue goto(source), eject(source), goto(target),
enter(target). -/
def Library.action_transfer (lib : Library) (source target : String) :
    Except ErrInfo Library :=
  match lib.get_slot_obj source with
  | Except.error e => Except.error e
  | Except.ok src =>
    match lib.get_slot_obj target with
    | Except.error e => Except.error e
    | Except.ok tgt =>
      Except.ok { lib with tasks := lib.tasks ++
        [⟨Verb.goto, DevRef.slotRef src.name⟩, ⟨Verb.eject, DevRef.slotRef src.name⟩,
         ⟨Verb.goto, DevRef.slotRef tgt.name⟩, ⟨Verb.enter, DevRef.slotRef tgt.name⟩] }

/-- `Library.action_lock`: synchronously invoke the `stop` semantics. -/
def Library.action_lock (lib : Library) : Library :=
  (lib.task_stop).2

/-- `Library.action_unlock`: set `running` back to true. -/
def Library.action_unlock (lib : Library) : Library :=
  { lib with running := true }

/-- `Library.action_park`: clear the current task and the whole queue, then
enqueue goto(s0000) and stop(picker). -/
def Library.action_park (lib : Library) : Library :=
  { lib with
      task := Option.none,
      tasks := [⟨Verb.goto, DevRef.slotRef "s0000"⟩, ⟨Verb.stop, DevRef.pickerRef⟩] }

/-- `Library.check_queue_max_depth_reached`: the source's queue-depth check
is a stub that unconditionally reports that the maximum is not reached. -/
def check_queue_max_depth_reached (lib : Library) : Bool :=
  false

/-- First value bound to a key in an HTTP query string. -/
def lookupQ (q : List (String × String)) (k : String) : Option String :=
  match q with
  | [] => Option.none
  | (k', v) :: rest => if k' = k then Option.some v else lookupQ rest k

/-- The required-parameter loop of `tape_library_handler_wrapper`: the first
missing parameter is rejected with reason `undefined`, the first present but
empty one with reason `empty`. -/
def paramCheck (q : List (String × String)) : List String → Option ErrInfo
  | [] => Option.none
  | p :: rest =>
    match lookupQ q p with
    | Option.some v =>
        if v = "" then Option.some ⟨"parameter", "empty", "empty parameter"⟩
        else paramCheck q rest
    | Option.none => Option.some ⟨"parameter", "undefined", "missing parameter"⟩

/-- The admission phase of `tape_library_handler_wrapper`, in source order:
parameter validation, then the lock check (skipped for lock-exempt
commands), then the queue-depth check.  `none` means the wrapper goes on to
dispatch the action. -/
def admission (lib : Library) (q : List (String × String)) (required : List String)
    (skipLockCheck : Bool) : Option ErrInfo :=
  match paramCheck q required with
  | Option.some e => Option.some e
  | Option.none =>
    if !lib.running && !skipLockCheck then
      Option.some ⟨"lock", "locked", "Library is locked"⟩
    else if check_queue_max_depth_reached lib then
      Option.some ⟨"taskqueue", "full", "to many requests in progress"⟩
    else
      Option.none

/-- `tape_library_handler_wrapper`: run the admission checks and only then
dispatch the action against the library. -/
def tape_library_handler_wrapper (lib : Library) (q : List (String × String))
    (required : List String) (skipLockCheck : Bool)
    (action : Library → Except ErrInfo Library) : Except ErrInfo Library :=
  match admission lib q required skipLockCheck with
  | Option.some e => Except.error e
  | Option.none => action lib

/-- How many copies of the tape id `t` a collection holds. -/
def tapesIn (l : List Slot) (t : String) : Nat :=
  (l.filterMap Slot.tape).count t

/-- How many copies of the tape id `t` the whole library holds, across the
storage slots, the drives, the access slots and the picker.  Two libraries
agree on every `tapeCount` exactly when they hold the same multiset of
tapes. -/
def Library.tapeCount (lib : Library) (t : String) : Nat :=
  tapesIn lib.slots t + tapesIn lib.drives t + tapesIn lib.accessSlots t +
    (if lib.picker.tape = Option.some t then 1 else 0)

/-- A tick is lossy when the current task is an eject or enter whose device
and picker are both occupied: the first half of the step then succeeds and
the second half raises, and the in-transit tape is dropped. -/
def Library.lossyTick (lib : Library) : Bool :=
  match lib.task with
  | Option.some t =>
    match t.verb with
    | Verb.eject =>
      (match lib.findDev t.dev with
       | Option.some dev => dev.tape.isSome && lib.picker.tape.isSome
       | Option.none => false)
    | Verb.enter =>
      (match lib.findDev t.dev with
       | Option.some dev => dev.tape.isSome && lib.picker.tape.isSome
       | Option.none => false)
    | _ => false
  | Option.none => false

lemma tapesIn_cons (a : Slot) (l : List Slot) (t : String) :
    tapesIn (a :: l) t
      = (if a.tape = Option.some t then 1 else 0) + tapesIn l t := by
  cases h : a.tape with
  | none => simp [tapesIn, List.filterMap_cons, h]
  | some v =>
    simp only [tapesIn, List.filterMap_cons, h, List.count_cons, beq_iff_eq,
      Option.some.injEq]
    by_cases hv : v = t
    · subst hv
      simp
      omega
    · simp only [hv, ite_false, if_neg]
      omega

lemma tapesIn_updateSlot (l : List Slot) (n : String) (s s' : Slot) (t : String)
    (h : lookupSlot l n = Option.some s) :
    tapesIn (updateSlot l n s') t + (if s.tape = Option.some t then 1 else 0)
      = tapesIn l t + (if s'.tape = Option.some t then 1 else 0) := by
  induction l with
  | nil => simp [lookupSlot] at h
  | cons a rest ih =>
    by_cases hn : a.name = n
    · have ha : a = s := by simpa [lookupSlot, hn] using h
      subst ha
      simp only [updateSlot, hn, if_pos, tapesIn_cons]
      omega
    · have h' : lookupSlot rest n = Option.some s := by
        simpa [lookupSlot, hn] using h
      simp only [updateSlot, hn, if_neg, ite_false, tapesIn_cons]
      have := ih h'
      omega

lemma updateDev_picker_of_ne (lib : Library) (r : DevRef) (s' : Slot)
    (h : r ≠ DevRef.pickerRef) : (lib.updateDev r s').picker = lib.picker := by
  cases r <;> simp [Library.updateDev] at h ⊢

lemma findDev_set_picker (lib : Library) (r : DevRef) (p : Slot)
    (h : r ≠ DevRef.pickerRef) :
    ({ lib with picker := p } : Library).findDev r = lib.findDev r := by
  cases r <;> simp [Library.findDev] at h ⊢

lemma updateDev_tapeCount (lib : Library) (r : DevRef) (dev s' : Slot) (t : String)
    (h : lib.findDev r = Option.some dev) :
    (lib.updateDev r s').tapeCount t + (if dev.tape = Option.some t then 1 else 0)
      = lib.tapeCount t + (if s'.tape = Option.some t then 1 else 0) := by
  cases r with
  | slotRef n =>
    have h' : lookupSlot lib.slots n = Option.some dev := h
    have := tapesIn_updateSlot lib.slots n dev s' t h'
    simp only [Library.updateDev, Library.tapeCount]
    omega
  | driveRef n =>
    have h' : lookupSlot lib.drives n = Option.some dev := h
    have := tapesIn_updateSlot lib.drives n dev s' t h'
    simp only [Library.updateDev, Library.tapeCount]
    omega
  | accessRef n =>
    have h' : lookupSlot lib.accessSlots n = Option.some dev := h
    have := tapesIn_updateSlot lib.accessSlots n dev s' t h'
    simp only [Library.updateDev, Library.tapeCount]
    omega
  | pickerRef =>
    have h' : dev = lib.picker := by
      simpa [Library.findDev] using h.symm
    subst h'
    simp only [Library.updateDev, Library.tapeCount]
    omega

lemma task_stop_tapeCount (lib : Library) (t : String) :
    (lib.task_stop).2.tapeCount t = lib.tapeCount t := rfl

lemma task_scan_tapeCount (lib : Library) (dev : Slot) (t : String) :
    (lib.task_scan dev).2.tapeCount t = lib.tapeCount t := rfl

lemma task_goto_tapeCount (lib : Library) (dev : Slot) (t : String) :
    (lib.task_goto dev).2.tapeCount t = lib.tapeCount t := by
  simp only [Library.task_goto]
  split_ifs <;> rfl

lemma task_eject_tapeCount (lib : Library) (r : DevRef) (t : String)
    (h : ∀ dev, lib.findDev r = Option.some dev →
      dev.tape = Option.none ∨ lib.picker.tape = Option.none) :
    (lib.task_eject r).2.tapeCount t = lib.tapeCount t := by
  unfold Library.task_eject
  cases hfind : lib.findDev r with
  | none => rfl
  | some dev =>
    cases htape : dev.tape with
    | none =>
      simp only [Slot.eject, htape]
      rfl
    | some tp =>
      have hpick : lib.picker.tape = Option.none := by
        rcases h dev hfind with h1 | h1
        · rw [htape] at h1
          exact absurd h1 (by simp)
        · exact h1
      have hrp : r ≠ DevRef.pickerRef := by
        intro he
        subst he
        have hd : dev = lib.picker := by
          simpa [Library.findDev] using hfind.symm
        rw [hd, hpick] at htape
        exact Option.noConfusion htape
      have hp1 : (lib.updateDev r { dev with tape := Option.none }).picker = lib.picker :=
        updateDev_picker_of_ne lib r _ hrp
      have he := updateDev_tapeCount lib r dev { dev with tape := Option.none } t hfind
      simp only [Slot.eject, htape, Slot.enter, hp1, hpick]
      simp only [Library.tapeCount, hp1, hpick, htape] at he ⊢
      simp only [Option.some.injEq] at he ⊢
      simp at he ⊢
      omega

lemma task_enter_tapeCount (lib : Library) (r : DevRef) (t : String)
    (h : ∀ dev, lib.findDev r = Option.some dev →
      dev.tape = Option.none ∨ lib.picker.tape = Option.none) :
    (lib.task_enter r).2.tapeCount t = lib.tapeCount t := by
  unfold Library.task_enter
  cases hfind : lib.findDev r with
  | none => rfl
  | some dev =>
    cases hpick : lib.picker.tape with
    | none =>
      simp only [Slot.eject, hpick]
      rfl
    | some tp =>
      have htape : dev.tape = Option.none := by
        rcases h dev hfind with h1 | h1
        · exact h1
        · rw [hpick] at h1
          exact absurd h1 (by simp)
      have hrp : r ≠ DevRef.pickerRef := by
        intro he
        subst he
        have hd : dev = lib.picker := by
          simpa [Library.findDev] using hfind.symm
        rw [hd, hpick] at htape
        exact Option.noConfusion htape
      have hfind1 :
          ({ lib with picker := { lib.picker with tape := Option.none } } : Library).findDev r
            = Option.some dev := by
        rw [findDev_set_picker _ _ _ hrp]
        exact hfind
      have he := updateDev_tapeCount
        ({ lib with picker := { lib.picker with tape := Option.none } } : Library)
        r dev { dev with tape := Option.some tp } t hfind1
      simp only [Slot.eject, hpick, hfind1, Slot.enter, htape]
      simp only [Library.tapeCount, htape, hpick] at he ⊢
      simp only [Option.some.injEq] at he ⊢
      simp at he ⊢
      omega

/-! Concrete states for counterexamples and witnesses.  Coordinates follow
the constructors: `Slot(c, r)` sits at `(16 + 6c, 2 + 3r)`, `Drive(0, r)` at
`(6, 3 + 6r)`, `AccessSlot(0, r)` at `(4, 18 + 3r)`, the picker starts at
`(10, 10)`. -/

/-- The inventory as after `setup`: nothing is known. -/
def invInit : DType → String → PyVal :=
  fun _ _ => PyVal.none

/-- The picker object created by `setup`. -/
def picker0 : Slot :=
  ⟨"picker", DType.picker, 10, 10, Option.none⟩

/-- Storage slot `s0000` holding a tape (as after `setup`, which seeds the
first seven slots). -/
def s0000occ : Slot :=
  ⟨"s0000", DType.slot, 16, 2, Option.some "tape6"⟩

/-- Storage slot `s0000`, empty. -/
def s0000emp : Slot :=
  ⟨"s0000", DType.slot, 16, 2, Option.none⟩

/-- Storage slot `s0007`, empty (slots past the seventh start empty). -/
def s0007emp : Slot :=
  ⟨"s0007", DType.slot, 16, 23, Option.none⟩

/-- Drive `d0000`, empty. -/
def d0000emp : Slot :=
  ⟨"d0000", DType.drive, 6, 3, Option.none⟩

/-- An access slot `a0000` holding a tape (`AccessSlot` reports type
`"slot"`). -/
def a0000occ : Slot :=
  ⟨"a0000", DType.slot, 4, 18, Option.some "tapeA"⟩

/-- A small running library in the image of the constructed one. -/
def baseLib : Library :=
  { x := 30, y := 30, xMax := 80, yMax := 50,
    slots := [s0000occ, s0007emp], drives := [d0000emp], accessSlots := [],
    picker := picker0,
    inventory := invInit, lastError := Option.none,
    task := Option.none, tasks := [], running := true }

/-- `baseLib` with the picker already standing at `s0000`. -/
def baseLibAtTarget : Library :=
  { baseLib with picker := { picker0 with x := 16, y := 2 } }

lemma task_goto_picker_x (lib : Library) (dev : Slot) :
    (lib.task_goto dev).2.picker.x =
      if lib.picker.x - dev.x = 0 then lib.picker.x
      else lib.picker.x - copysign1 (lib.picker.x - dev.x) := by
  simp only [Library.task_goto]
  split_ifs <;> rfl

lemma task_goto_picker_y (lib : Library) (dev : Slot) :
    (lib.task_goto dev).2.picker.y =
      if lib.picker.y - dev.y = 0 then lib.picker.y
      else lib.picker.y - copysign1 (lib.picker.y - dev.y) := by
  simp only [Library.task_goto]
  split_ifs <;> rfl

lemma task_goto_done_iff (lib : Library) (dev : Slot) :
    (lib.task_goto dev).1 = true ↔
      (lib.picker.x = dev.x ∧ lib.picker.y = dev.y) := by
  simp only [Library.task_goto]
  split_ifs with h1 h2 h3 <;> simp <;> omega

lemma task_goto_picker_of_done (lib : Library) (dev : Slot)
    (h : (lib.task_goto dev).1 = true) :
    (lib.task_goto dev).2.picker = lib.picker := by
  simp only [Library.task_goto] at h ⊢
  split_ifs at h ⊢ with h1 <;> simp_all

/-- C1, counterexample: with the picker at `(10, 10)` and the target
`s0000` at `(16, 2)` both deltas are non-zero, and a single `task_goto`
tick changes the picker's X **and** Y coordinate — not "at most one axis". -/
theorem c1_goto_single_axis_counterexample :
    (baseLib.task_goto s0000occ).2.picker.x ≠ baseLib.picker.x ∧
    (baseLib.task_goto s0000occ).2.picker.y ≠ baseLib.picker.y := by
  decide

/-- C1 (amended): in a tick of a goto task whose picker has not reached the
target, the executor moves the picker one unit toward the target on **each**
axis whose delta is non-zero — both axes may move in the same tick — and
leaves an axis whose delta is zero unchanged. -/
theorem c1_goto_steps_every_nonzero_axis (lib : Library) (dev : Slot) :
    (lib.picker.x ≠ dev.x →
        ((lib.task_goto dev).2.picker.x - dev.x).natAbs
          = (lib.picker.x - dev.x).natAbs - 1) ∧
    (lib.picker.x = dev.x → (lib.task_goto dev).2.picker.x = dev.x) ∧
    (lib.picker.y ≠ dev.y →
        ((lib.task_goto dev).2.picker.y - dev.y).natAbs
          = (lib.picker.y - dev.y).natAbs - 1) ∧
    (lib.picker.y = dev.y → (lib.task_goto dev).2.picker.y = dev.y) := by
  have hx := task_goto_picker_x lib dev
  have hy := task_goto_picker_y lib dev
  refine ⟨?_, ?_, ?_, ?_⟩ <;> intro h <;>
    simp only [hx, hy, copysign1] <;> split_ifs <;> omega

/-- C1 witness: at the concrete state of the counterexample the X distance
shrinks by exactly one. -/
theorem c1_goto_steps_every_nonzero_axis_witness :
    ((baseLib.task_goto s0000occ).2.picker.x - s0000occ.x).natAbs
      = (baseLib.picker.x - s0000occ.x).natAbs - 1 :=
  (c1_goto_steps_every_nonzero_axis baseLib s0000occ).1 (by decide)

/-- C6: a goto step reports done exactly when the picker already stands at
the target — so when the task reports done the picker coordinate equals the
target coordinate with no overshoot (and the done tick moves nothing) — and
a single tick never changes either picker coordinate by more than one
unit. -/
theorem c6_goto_converges_no_overshoot (lib : Library) (dev : Slot) :
    ((lib.task_goto dev).1 = true →
        lib.picker.x = dev.x ∧ lib.picker.y = dev.y ∧
        (lib.task_goto dev).2.picker = lib.picker) ∧
    ((lib.task_goto dev).2.picker.x - lib.picker.x).natAbs ≤ 1 ∧
    ((lib.task_goto dev).2.picker.y - lib.picker.y).natAbs ≤ 1 := by
  have hx := task_goto_picker_x lib dev
  have hy := task_goto_picker_y lib dev
  refine ⟨?_, ?_, ?_⟩
  · intro h
    have hd := (task_goto_done_iff lib dev).mp h
    exact ⟨hd.1, hd.2, task_goto_picker_of_done lib dev h⟩
  · simp only [hx, copysign1]
    split_ifs <;> omega
  · simp only [hy, copysign1]
    split_ifs <;> omega

/-- C6 witness: with the picker standing at `s0000`, the goto step reports
done, the coordinates agree and nothing moves. -/
theorem c6_goto_converges_no_overshoot_witness :
    baseLibAtTarget.picker.x = s0000occ.x ∧
    baseLibAtTarget.picker.y = s0000occ.y ∧
    (baseLibAtTarget.task_goto s0000occ).2.picker = baseLibAtTarget.picker :=
  (c6_goto_converges_no_overshoot baseLibAtTarget s0000occ).1 (by decide)

/-- C5: `eject` on an empty location raises the empty-location
`LibraryError` (`"<name> is empty"`, the spec's `EmptyLocation`) and `enter`
on an occupied location raises the occupied-location `LibraryError`
(`"<name> is not empty"`, the spec's `OccupiedLocation`); both raise before
any assignment, so no occupancy is mutated — at the task level a failing
empty-eject leaves every collection, the picker and the inventory exactly as
they were, and a failing occupied-enter leaves every collection and the
inventory unchanged. -/
theorem c5_eject_empty_enter_occupied_fail_unchanged (s : Slot) :
    (s.tape = Option.none → s.eject = Except.error (s.name ++ " is empty")) ∧
    (∀ t0 tp, s.tape = Option.some t0 →
        s.enter tp = Except.error (s.name ++ " is not empty")) ∧
    (∀ (lib : Library) (r : DevRef),
        lib.findDev r = Option.some s → s.tape = Option.none →
        (lib.task_eject r).1 = false ∧
        (lib.task_eject r).2.slots = lib.slots ∧
        (lib.task_eject r).2.drives = lib.drives ∧
        (lib.task_eject r).2.accessSlots = lib.accessSlots ∧
        (lib.task_eject r).2.picker = lib.picker ∧
        (lib.task_eject r).2.inventory = lib.inventory) ∧
    (∀ (lib : Library) (r : DevRef) (t0 : String),
        r ≠ DevRef.pickerRef →
        lib.findDev r = Option.some s → s.tape = Option.some t0 →
        (lib.task_enter r).1 = false ∧
        (lib.task_enter r).2.slots = lib.slots ∧
        (lib.task_enter r).2.drives = lib.drives ∧
        (lib.task_enter r).2.accessSlots = lib.accessSlots ∧
        (lib.task_enter r).2.inventory = lib.inventory) := by
  refine ⟨?_, ?_, ?_, ?_⟩
  · intro h
    simp [Slot.eject, h]
  · intro t0 tp h
    simp [Slot.enter, h]
  · intro lib r hfind hemp
    unfold Library.task_eject
    rw [hfind]
    simp [Slot.eject, hemp]
  · intro lib r t0 hrp hfind hocc
    unfold Library.task_enter
    rw [hfind]
    cases hpick : lib.picker.tape with
    | none =>
      simp [Slot.eject, hpick]
    | some tp =>
      simp only [Slot.eject, hpick]
      rw [findDev_set_picker _ _ _ hrp, hfind]
      simp [Slot.enter, hocc]

/-- C5 witness: ejecting the concrete empty slot `s0000` reports the
empty-location error. -/
theorem c5_eject_empty_enter_occupied_fail_unchanged_witness :
    s0000emp.eject = Except.error ("s0000" ++ " is empty") :=
  (c5_eject_empty_enter_occupied_fail_unchanged s0000emp).1 rfl

/-- `baseLib` whose inventory already records `s0007` as known-empty
(Python `False`), as a preceding eject would have left it. -/
def libScanKnown : Library :=
  { baseLib with inventory := setInv invInit DType.slot "s0007" (PyVal.bool false) }

/-- C2, the code at the failing input: scanning the **empty** slot `s0007`
stores the raw scan result — Python `None` — into the inventory, the value
the repository's own inventory documentation reserves for "not scanned"
(unknown), not the known-empty `False`; it thereby also regresses an entry
that was already known-empty back to unknown. -/
theorem c2_scan_empty_records_unknown :
    libScanKnown.inventory DType.slot "s0007" = PyVal.bool false ∧
    (libScanKnown.task_scan s0007emp).1 = true ∧
    (libScanKnown.task_scan s0007emp).2.inventory DType.slot "s0007" = PyVal.none := by
  decide

/-- A library one tick away from a failing eject: the current task ejects
the empty `s0000`, and another task is still pending behind it. -/
def libEjectFail : Library :=
  { baseLib with
      slots := [s0000emp, s0007emp],
      task := Option.some ⟨Verb.eject, DevRef.slotRef "s0000"⟩,
      tasks := [⟨Verb.goto, DevRef.driveRef "d0000"⟩] }

/-- C3: when the current eject or enter task's step raises a domain error
(reports not-done), the tick leaves the pending FIFO queue empty and
`last_error` holds the raised empty-location or occupied-location
message. -/
theorem c3_domain_error_clears_queue (lib : Library) (t : Task)
    (hrun : lib.running = true)
    (htask : lib.task = Option.some t)
    (hverb : t.verb = Verb.eject ∨ t.verb = Verb.enter)
    (hfail : (lib.runTask t).1 = false) :
    lib.move.tasks = [] ∧
    ∃ d, lib.move.lastError = Option.some (d ++ " is empty") ∨
         lib.move.lastError = Option.some (d ++ " is not empty") := by
  have hmove : lib.move = (lib.runTask t).2 := by
    unfold Library.move
    rw [hrun, htask]
    simp [hfail]
  rw [hmove]
  obtain ⟨v, r⟩ := t
  rcases hverb with hv | hv <;> simp only at hv <;> subst hv
  · simp only [Library.runTask] at hfail ⊢
    unfold Library.task_eject at hfail ⊢
    cases hfind : lib.findDev r with
    | none => rw [hfind] at hfail; simp at hfail
    | some dev =>
      rw [hfind] at hfail
      cases hdev : dev.tape with
      | none =>
        simp only [Slot.eject, hdev]
        exact ⟨trivial, _, Or.inl rfl⟩
      | some tp =>
        simp only [Slot.eject, hdev] at hfail ⊢
        cases hpk : ((lib.updateDev r { dev with tape := Option.none }).picker).tape with
        | none =>
          simp [Slot.enter, hpk] at hfail
        | some q =>
          simp only [Slot.enter, hpk]
          exact ⟨trivial, _, Or.inr rfl⟩
  · simp only [Library.runTask] at hfail ⊢
    unfold Library.task_enter at hfail ⊢
    cases hfind : lib.findDev r with
    | none => rw [hfind] at hfail; simp at hfail
    | some dev =>
      rw [hfind] at hfail
      cases hpk : lib.picker.tape with
      | none =>
        simp only [Slot.eject, hpk]
        exact ⟨trivial, _, Or.inl rfl⟩
      | some tp =>
        simp only [Slot.eject, hpk] at hfail ⊢
        cases hfind1 : ({ lib with picker := { lib.picker with tape := Option.none } } : Library).findDev r with
        | none => rw [hfind1] at hfail; simp at hfail
        | some dev1 =>
          rw [hfind1] at hfail
          cases hd1 : dev1.tape with
          | none =>
            simp [Slot.enter, hd1] at hfail
          | some q =>
            simp only [Slot.enter, hd1]
            exact ⟨trivial, _, Or.inr rfl⟩

/-- C3 witness: the concrete failing eject empties the queue and records
the empty-location message. -/
theorem c3_domain_error_clears_queue_witness :
    libEjectFail.move.tasks = [] ∧
    ∃ d, libEjectFail.move.lastError = Option.some (d ++ " is empty") ∨
         libEjectFail.move.lastError = Option.some (d ++ " is not empty") :=
  c3_domain_error_clears_queue libEjectFail _ rfl rfl (Or.inl rfl) (by decide)

/-- C4, the code at the failing input: after the eject of empty `s0000`
fails, the step returns not-done, so `move` leaves the failed task in the
current-task slot; the very next tick executes the same eject again and
raises the same error again — the failed primitive task is retried
automatically, tick after tick. -/
theorem c4_failed_task_is_retried :
    libEjectFail.move.task = Option.some ⟨Verb.eject, DevRef.slotRef "s0000"⟩ ∧
    ({ libEjectFail.move with lastError := Option.none } : Library).move.lastError
      = Option.some "s0000 is empty" := by
  decide

/-- A library in the middle of ejecting the occupied `s0000` while the
picker already carries a tape: the device eject will succeed and the picker
enter will fail. -/
def libLossy : Library :=
  { baseLib with
      picker := { picker0 with tape := Option.some "tapeP" },
      task := Option.some ⟨Verb.eject, DevRef.slotRef "s0000"⟩ }

/-- A library about to eject the occupied `s0000` into the free picker. -/
def libEjectOk : Library :=
  { baseLib with task := Option.some ⟨Verb.eject, DevRef.slotRef "s0000"⟩ }

/-- C9, counterexample: on the tick in which the eject of `s0000` succeeds
at the device but the picker enter fails (picker already holding `tapeP`),
the tape `tape6` vanishes from the library — the executor step does not
preserve the multiset of tapes. -/
theorem c9_conservation_counterexample :
    libLossy.tapeCount "tape6" = 1 ∧ libLossy.move.tapeCount "tape6" = 0 ∧
    libLossy.move.tapeCount "tapeP" = 1 := by
  decide

/-- C9 (amended): an executor tick preserves the per-identifier tape count
(hence the multiset of tapes) except on a lossy tick — an eject or enter
task whose device and picker are both occupied, where the first half of the
step succeeds, the second half raises, and the in-transit tape is
dropped. -/
theorem c9_move_preserves_tapes_unless_lossy (lib : Library) (t : String)
    (h : lib.lossyTick = false) :
    lib.move.tapeCount t = lib.tapeCount t := by
  unfold Library.move
  by_cases hrun : lib.running
  · rw [if_pos hrun]
    cases htask : lib.task with
    | none =>
      cases htl : lib.tasks with
      | nil => rfl
      | cons a rest => rfl
    | some tsk =>
      have key : (lib.runTask tsk).2.tapeCount t = lib.tapeCount t := by
        obtain ⟨v, r⟩ := tsk
        cases v with
        | goto =>
          simp only [Library.runTask]
          cases hf : lib.findDev r with
          | none => rfl
          | some d => exact task_goto_tapeCount lib d t
        | scan =>
          simp only [Library.runTask]
          cases hf : lib.findDev r with
          | none => rfl
          | some d => exact task_scan_tapeCount lib d t
        | stop => exact task_stop_tapeCount lib t
        | eject =>
          have hcond : ∀ dev, lib.findDev r = Option.some dev →
              dev.tape = Option.none ∨ lib.picker.tape = Option.none := by
            intro dev hfd
            simp only [Library.lossyTick, htask] at h
            simp [hfd] at h
            cases hdt : dev.tape with
            | none => exact Or.inl rfl
            | some dtp =>
              cases hpt : lib.picker.tape with
              | none => exact Or.inr rfl
              | some ptp =>
                rw [hdt, hpt] at h
                simp at h
          exact task_eject_tapeCount lib r t hcond
        | enter =>
          have hcond : ∀ dev, lib.findDev r = Option.some dev →
              dev.tape = Option.none ∨ lib.picker.tape = Option.none := by
            intro dev hfd
            simp only [Library.lossyTick, htask] at h
            simp [hfd] at h
            cases hdt : dev.tape with
            | none => exact Or.inl rfl
            | some dtp =>
              cases hpt : lib.picker.tape with
              | none => exact Or.inr rfl
              | some ptp =>
                rw [hdt, hpt] at h
                simp at h
          exact task_enter_tapeCount lib r t hcond
      show (if (lib.runTask tsk).1 = true
              then { (lib.runTask tsk).2 with task := Option.none }
              else (lib.runTask tsk).2).tapeCount t = lib.tapeCount t
      cases hdone : (lib.runTask tsk).1 with
      | false =>
        simpa using key
      | true =>
        simpa [Library.tapeCount] using key
  · rw [if_neg hrun]

/-- C9 witness: the same eject into a free picker conserves the count of
`tape6`. -/
theorem c9_move_preserves_tapes_unless_lossy_witness :
    libEjectOk.move.tapeCount "tape6" = libEjectOk.tapeCount "tape6" :=
  c9_move_preserves_tapes_unless_lossy libEjectOk "tape6" (by decide)

/-- `baseLib` extended with an existing access slot `a0000`. -/
def libWithAccess : Library :=
  { baseLib with accessSlots := [a0000occ] }

/-- C7, the code at the failing input: with an access slot `a0000` present,
`transfer("a0000", "s0000")` is rejected with `{slot, nosuch}` (nothing is
enqueued — the dispatcher returns the error before touching the queue),
because `action_transfer` resolves both identifiers through `get_slot_obj`,
which consults only the storage slots; the inner helper `slot_or_access`
would resolve the access slot but is never called.  Between two existing
storage slots the command is accepted with the documented four-task
sequence. -/
theorem c7_transfer_access_slot_rejected :
    libWithAccess.action_transfer "a0000" "s0000"
        = Except.error ⟨"slot", "nosuch", "no such slot"⟩ ∧
    libWithAccess.slot_or_access "a0000" = Option.some a0000occ ∧
    (libWithAccess.action_transfer "s0000" "s0007").toOption.map Library.tasks
        = Option.some
          [⟨Verb.goto, DevRef.slotRef "s0000"⟩, ⟨Verb.eject, DevRef.slotRef "s0000"⟩,
           ⟨Verb.goto, DevRef.slotRef "s0007"⟩, ⟨Verb.enter, DevRef.slotRef "s0007"⟩] :=
  ⟨rfl, rfl, rfl⟩

lemma paramCheck_etype (q : List (String × String)) :
    ∀ (req : List String) (e : ErrInfo),
      paramCheck q req = Option.some e → e.etype = "parameter" := by
  intro req
  induction req with
  | nil =>
    intro e h
    simp [paramCheck] at h
  | cons p rest ih =>
    intro e h
    unfold paramCheck at h
    cases hl : lookupQ q p with
    | none =>
      simp only [hl] at h
      injection h with h'
      rw [← h']
    | some v =>
      simp only [hl] at h
      by_cases hv : v = ""
      · rw [if_pos hv] at h
        injection h with h'
        rw [← h']
      · rw [if_neg hv] at h
        exact ih e h

lemma admission_ne_queueFull (lib : Library) (q : List (String × String))
    (req : List String) (sk : Bool) :
    admission lib q req sk
      ≠ Option.some ⟨"taskqueue", "full", "to many requests in progress"⟩ := by
  intro h
  unfold admission at h
  cases hp : paramCheck q req with
  | some e =>
    simp only [hp] at h
    injection h with h'
    have he := paramCheck_etype q req e hp
    rw [h'] at he
    exact absurd he (by decide)
  | none =>
    simp only [hp] at h
    by_cases hl : (!lib.running && !sk) = true
    · rw [if_pos hl] at h
      injection h with h'
      exact absurd h' (by decide)
    · rw [if_neg hl] at h
      simp [check_queue_max_depth_reached] at h

/-- C8, counterexample: there is no library state and no request — whatever
the queue depth — that the admission phase rejects with the
`{taskqueue, full}` (QueueFull) error; the claimed rejection never
happens. -/
theorem c8_queue_full_counterexample :
    ¬ ∃ (lib : Library) (q : List (String × String)) (req : List String) (sk : Bool),
        admission lib q req sk
          = Option.some ⟨"taskqueue", "full", "to many requests in progress"⟩ := by
  rintro ⟨lib, q, req, sk, h⟩
  exact admission_ne_queueFull lib q req sk h

/-- C8 (amended): the wrapper does contain a QueueFull rejection branch,
but `check_queue_max_depth_reached` is a stub that always reports not-full,
so admission never rejects any command with kind QueueFull, whatever the
queue depth; every such command proceeds to dispatch. -/
theorem c8_queue_check_is_stub (lib : Library) (q : List (String × String))
    (req : List String) (sk : Bool) :
    check_queue_max_depth_reached lib = false ∧
    admission lib q req sk
      ≠ Option.some ⟨"taskqueue", "full", "to many requests in progress"⟩ :=
  ⟨rfl, admission_ne_queueFull lib q req sk⟩

/-- `baseLib` with a hundred pending tasks — far beyond any plausible
maximum depth. -/
def libDeepQueue : Library :=
  { baseLib with tasks := List.replicate 100 ⟨Verb.goto, DevRef.slotRef "s0000"⟩ }

/-- C8 witness: a valid scan request against the unlocked library with a
hundred queued tasks is still not rejected with QueueFull. -/
theorem c8_queue_check_is_stub_witness :
    check_queue_max_depth_reached libDeepQueue = false ∧
    admission libDeepQueue [("slot", "s0000")] ["slot"] false
      ≠ Option.some ⟨"taskqueue", "full", "to many requests in progress"⟩ :=
  c8_queue_check_is_stub libDeepQueue [("slot", "s0000")] ["slot"] false

/-- `baseLib` with a goto task in progress and a task still pending. -/
def libMidGoto : Library :=
  { baseLib with
      task := Option.some ⟨Verb.goto, DevRef.slotRef "s0000"⟩,
      tasks := [⟨Verb.scan, DevRef.slotRef "s0000"⟩] }

/-- C10: `lock()` (the synchronous stop semantics) empties only the pending
FIFO queue and leaves the current-task slot untouched; after `unlock()` the
task is still current and the next tick executes exactly that task; only
`park()` clears the current-task slot as well. -/
theorem c10_lock_keeps_current_task (lib : Library) (t : Task)
    (h : lib.task = Option.some t) :
    (lib.action_lock).task = Option.some t ∧
    (lib.action_lock).tasks = [] ∧
    (lib.action_lock).running = false ∧
    ((lib.action_lock).action_unlock).task = Option.some t ∧
    ((lib.action_lock).action_unlock).move =
      (let r := ((lib.action_lock).action_unlock).runTask t
       if r.1 then { r.2 with task := Option.none } else r.2) ∧
    (lib.action_park).task = Option.none := by
  refine ⟨?_, rfl, rfl, ?_, ?_, rfl⟩
  · simp [Library.action_lock, Library.task_stop, h]
  · simp [Library.action_unlock, Library.action_lock, Library.task_stop, h]
  · have h2 : ((lib.action_lock).action_unlock).task = Option.some t := by
      simp [Library.action_unlock, Library.action_lock, Library.task_stop, h]
    unfold Library.move
    rw [h2]
    rfl

/-- C10 witness: locking the library mid-goto keeps the goto current. -/
theorem c10_lock_keeps_current_task_witness :
    (libMidGoto.action_lock).task
      = Option.some ⟨Verb.goto, DevRef.slotRef "s0000"⟩ :=
  (c10_lock_keeps_current_task libMidGoto _ rfl).1

end TapeLib
